import Mathlib

set_option linter.unusedVariables false

/-!
Verification of the FormRelay Cloudflare worker (src/src/worker.ts, with the
earlier variant src/unnamed/part_000 embedded as well where a claim refers to
it).  The worker is a request/response mapper: JavaScript values are modelled
by a small dynamic `Json` type, the platform primitives that the worker calls
but does not define (URL resolution, `req.json()` and the other body decoders,
the Mailgun HTTP endpoint, `JSON.stringify`, the clock) are modelled as oracle
parameters gathered in `Platform` / `PlatformV0` records, and every branch of
the handler is translated directly from the source.  Static template text that
the specification declares opaque (the CSS blocks of the notification email)
is elided into short marker strings; every data-dependent computation of the
templates (field filtering, label formatting, newline handling) is modelled
exactly.
-/

namespace FormRelay

/-- Splitting helper: accumulate the current piece until the separator. -/
def jsSplitAux (sep : Char) : List Char → List Char → List String
  | [], acc => [String.mk acc.reverse]
  | c :: rest, acc =>
    if c == sep then String.mk acc.reverse :: jsSplitAux sep rest []
    else jsSplitAux sep rest (c :: acc)

/-- JavaScript `s.split(sep)` for a one-character separator, implemented on
character lists so that concrete instances evaluate inside the kernel. -/
def jsSplit (s : String) (sep : Char) : List String :=
  jsSplitAux sep s.toList []

/-- JavaScript `s.startsWith(pre)`, on character lists. -/
def strStartsWith (s pre : String) : Bool :=
  pre.toList.isPrefixOf s.toList

/-- JavaScript `s.endsWith(suf)`, on character lists. -/
def strEndsWith (s suf : String) : Bool :=
  suf.toList.reverse.isPrefixOf s.toList.reverse

/-- Join a list of strings with a separator between elements. -/
def joinSep (sep : String) : List String → String
  | [] => ""
  | [s] => s
  | s :: rest => s ++ sep ++ joinSep sep rest

/-- Dynamic JavaScript/JSON values, as produced by the body decoders. -/
inductive Json where
  | null
  | bool (b : Bool)
  | num (n : Int)
  | str (s : String)
  | arr (elems : List Json)
  | obj (fields : List (String × Json))

/-- JavaScript truthiness of a value (`if (v)`). -/
def Json.truthy : Json → Bool
  | .null => false
  | .bool b => b
  | .num n => n != 0
  | .str s => s != ""
  | .arr _ => true
  | .obj _ => true

mutual

/-- JavaScript string coercion, as performed by template-literal
interpolation.  Array elements are joined with commas; plain objects print as
`[object Object]`. -/
def Json.jsToString : Json → String
  | .null => "null"
  | .bool b => cond b "true" "false"
  | .num n => toString n
  | .str s => s
  | .arr xs => joinSep "," (Json.jsToStringList xs)
  | .obj _ => "[object Object]"

/-- String coercion of each element of an array value. -/
def Json.jsToStringList : List Json → List String
  | [] => []
  | x :: xs => Json.jsToString x :: Json.jsToStringList xs

end

/-- Property lookup in a field list.  JavaScript objects keep a single binding
per key with the last assignment winning, so lookup scans from the end. -/
def objLookup (fs : List (String × Json)) (k : String) : Option Json :=
  (fs.reverse.find? (fun p => p.1 == k)).map Prod.snd

/-- Enumerable own properties of a value, as `Object.entries` sees them:
the fields of an object, the indexed characters of a string, the indexed
elements of an array, and nothing for the primitives. -/
def Json.entries : Json → List (String × Json)
  | .obj fs => fs
  | .str s => s.toList.enum.map (fun p => (toString p.1, Json.str (String.mk [p.2])))
  | .arr xs => xs.enum.map (fun p => (toString p.1, p.2))
  | _ => []

/-- Property access `v[k]`.  Reading a property of `null` throws a
`TypeError` (modelled as `Except.error` carrying the message text, quotes
around the property name elided); on any other value it yields the property
or `undefined` (modelled as `none`). -/
def Json.getProp (v : Json) (k : String) : Except String (Option Json) :=
  match v with
  | .null => .error ("Cannot read properties of null (reading " ++ k ++ ")")
  | w => .ok (objLookup w.entries k)

/-- Truthiness of a possibly-`undefined` value. -/
def truthyOpt : Option Json → Bool
  | none => false
  | some v => v.truthy

/-- String coercion of a possibly-`undefined` value. -/
def jsToStringOpt : Option Json → String
  | none => "undefined"
  | some v => v.jsToString

/-- Truthiness of the property `k` of a parsed body, with a thrown
`TypeError` counted as not truthy.  Used only to state claims. -/
def truthyProp (data : Json) (k : String) : Bool :=
  match data.getProp k with
  | .ok v => truthyOpt v
  | .error _ => false

/-- The JavaScript idiom `a || b` on an optional string: `b` when `a` is
absent or empty, `a` otherwise. -/
def jsOrStr (a : Option String) (b : String) : String :=
  match a with
  | some s => if s == "" then b else s
  | none => b

/-- Substring test, JavaScript `s.includes(sub)`. -/
def strIncludesL (hay sub : List Char) : Bool :=
  sub.isPrefixOf hay ||
    match hay with
    | [] => false
    | _ :: t => strIncludesL t sub

/-- Substring test on strings. -/
def strIncludes (s sub : String) : Bool :=
  strIncludesL s.toList sub.toList

/-- A form configuration record, one entry of `config/forms.json`. -/
structure FormConfig where
  name : String
  notifyTo : List String
  fromEmail : Option String
  thankYouUrl : Option String
  subject : Option String
  enabled : Option Bool

/-- The defaults record, `config/defaults.json`. -/
structure Defaults where
  defaultNotifyTo : String
  defaultFromEmail : String
  defaultThankYouUrl : String

/-- The worker environment bindings that the main handler reads.  The API key
and domain also feed the provider request itself; that part is absorbed into
the provider oracle, while the presence checks on them are modelled here. -/
structure Env where
  MAILGUN_API_KEY : String
  MAILGUN_DOMAIN : String

/-- One outbound Mailgun message, the form-encoded body of one provider call
made by `sendWithMailgun` in src/src/worker.ts (`from` is spelled `fromAddr`
because `from` is reserved in Lean). -/
structure MailgunMessage where
  toAddr : String
  fromAddr : String
  subject : String
  html : String
  text : String

/-- One outbound message of the earlier variant (no html part). -/
structure MailgunMessageV0 where
  toAddr : String
  fromAddr : String
  subject : String
  text : String

/-- What the provider endpoint answers: HTTP status and response body. -/
structure ProviderResponse where
  status : Nat
  body : String

/-- `Response.ok` of the fetch API: status in the range 200 to 299. -/
def resOk (status : Nat) : Bool :=
  200 ≤ status && status ≤ 299

/-- An inbound request, carrying the fields the worker reads together with
the outcome of the platform body decoders: `jsonBody` is the result of
`req.json()` (an error models a thrown `SyntaxError`), `formDataBody` the
string-coerced pairs of `req.formData()`, and `urlencodedBody` the pairs
decoded from the text body by `URLSearchParams`. -/
structure Request where
  method : String
  url : String
  pathname : String
  redirectParam : Option String
  contentType : Option String
  referer : Option String
  jsonBody : Except String Json
  formDataBody : List (String × String)
  urlencodedBody : List (String × String)

/-- Platform oracles for the main handler: `resolveUrl t b` is
`new URL(t, b).toString()`, `parseOrigin s` is `new URL(s).origin` with
`none` when the constructor throws, `provider` is the Mailgun endpoint, and
`timestamp` is `new Date().toLocaleString()`. -/
structure Platform where
  resolveUrl : String → String → String
  parseOrigin : String → Option String
  provider : MailgunMessage → ProviderResponse
  timestamp : String

/-- An HTTP response: status, body (`none` is a null body) and headers. -/
structure Response where
  status : Nat
  body : Option String
  headers : List (String × String)

/-- `Headers.set`: replace any existing binding of the key by the new one. -/
def setHeader (hs : List (String × String)) (k v : String) : List (String × String) :=
  (hs.filter (fun p => p.1 != k)) ++ [(k, v)]

/-- `Headers.get`. -/
def lookupHeader (hs : List (String × String)) (k : String) : Option String :=
  (hs.find? (fun p => p.1 == k)).map Prod.snd

/-- `getHeader res k` reads header `k` of a response. -/
def getHeader (res : Response) (k : String) : Option String :=
  lookupHeader res.headers k

/-- The `cors` helper of worker.ts: copy the response and set the three
permissive CORS headers. -/
def cors (res : Response) : Response :=
  { res with
    headers :=
      setHeader
        (setHeader
          (setHeader res.headers "Access-Control-Allow-Origin" "*")
          "Access-Control-Allow-Methods" "POST, OPTIONS")
        "Access-Control-Allow-Headers" "Content-Type" }

/-- A response carries the permissive CORS triple. -/
def hasCorsHeaders (res : Response) : Bool :=
  (getHeader res "Access-Control-Allow-Origin" == some "*") &&
  (getHeader res "Access-Control-Allow-Methods" == some "POST, OPTIONS") &&
  (getHeader res "Access-Control-Allow-Headers" == some "Content-Type")

/-- `parseBody` of worker.ts: dispatch on the content type.  The JSON branch
returns whatever `req.json()` produced, with no check that the value is an
object; the other two branches always build a flat string record. -/
def parseBody (req : Request) : Except String Json :=
  let ct := jsOrStr req.contentType ""
  if strIncludes ct "application/json" then req.jsonBody
  else if strIncludes ct "multipart/form-data" then
    .ok (Json.obj (req.formDataBody.map (fun p => (p.1, Json.str p.2))))
  else
    .ok (Json.obj (req.urlencodedBody.map (fun p => (p.1, Json.str p.2))))

/-- `isFormRoute` check of worker.ts line 39: the literal path `/submit`, or
a path of three slash-separated pieces ending in `/submit`. -/
def isFormRoute (pathname : String) : Bool :=
  pathname == "/submit" ||
    ((jsSplit pathname '/').length == 3 && strEndsWith pathname "/submit")

/-- `getFormConfig` of worker.ts: split the path into non-empty segments; if
there are at least two and the second is `submit`, look the first up in the
configuration table (first match, configuration keys are unique). -/
def getFormConfig (configs : List (String × FormConfig)) (pathname : String) :
    Option FormConfig :=
  let pathParts := (jsSplit pathname '/').filter (fun s => s != "")
  match pathParts with
  | p0 :: p1 :: _ =>
    if p1 == "submit" then (configs.find? (fun c => c.1 == p0)).map Prod.snd
    else none
  | _ => none

/-- `formConfig && formConfig.enabled === false` of worker.ts line 74. -/
def isDisabled : Option FormConfig → Bool
  | some c => c.enabled == some false
  | none => false

/-- The `data._form || "contact"` part of the form-name computation; reading
`_form` can throw on a null body. -/
def formNameFromData (data : Json) : Except String String := do
  let v ← data.getProp "_form"
  match v with
  | some j => pure (if j.truthy then j.jsToString else "contact")
  | none => pure "contact"

/-- `formConfig?.name || data._form || "contact"` of worker.ts line 70.  A
truthy value read from `_form` is string-coerced here; the real code would
carry the raw value and only later throw inside the composer, a corner the
claims never reach (their submissions are flat string records). -/
def resolveFormName (fc : Option FormConfig) (data : Json) : Except String String :=
  match fc with
  | some c => if c.name == "" then formNameFromData data else .ok c.name
  | none => formNameFromData data

/-- `formConfig?.subject || New ... submission` of worker.ts line 108. -/
def resolveSubject (fc : Option FormConfig) (formName : String) : String :=
  jsOrStr (fc.bind FormConfig.subject) ("New " ++ formName ++ " submission")

/-- `formConfig?.notifyTo || [defaults.defaultNotifyTo]` of worker.ts line
115.  A present configuration always contributes its own array: in JavaScript
an array is truthy even when empty, so an empty `notifyTo` is NOT replaced by
the default. -/
def resolveRecipients (fc : Option FormConfig) (defaults : Defaults) : List String :=
  match fc with
  | some c => c.notifyTo
  | none => [defaults.defaultNotifyTo]

/-- `formConfig?.fromEmail || defaults.defaultFromEmail` of worker.ts 116. -/
def resolveFromEmail (fc : Option FormConfig) (defaults : Defaults) : String :=
  jsOrStr (fc.bind FormConfig.fromEmail) defaults.defaultFromEmail

/-- Label formatting of the composers: capitalize the first character and put
a space before every later ASCII capital. -/
def formatLabel (k : String) : String :=
  match k.toList with
  | [] => ""
  | c :: rest =>
    String.mk (c.toUpper :: rest.flatMap (fun ch => if ch.isUpper then [' ', ch] else [ch]))

/-- `value.replace` of newlines by `<br>` in the HTML composer. -/
def nlToBr (s : String) : String :=
  String.mk (s.toList.flatMap (fun c => if c == '\n' then ['<', 'b', 'r', '>'] else [c]))

/-- The underscore filter plus object rebuild of the composers: drop every
field whose name starts with `_`, then rebuild a record in which a repeated
key keeps its first position and its last value. -/
def filteredEntries (data : Json) : List (String × Json) :=
  (data.entries.filter (fun p => !(strStartsWith p.1 "_"))).foldl
    (fun acc p =>
      if acc.any (fun q => q.1 == p.1) then
        acc.map (fun q => if q.1 == p.1 then (q.1, p.2) else q)
      else acc ++ [p])
    []

/-- One table row of the HTML composer.  The static inline CSS of the row is
elided; the placement of the formatted label and the newline-converted value
is exact.  A non-string value makes `value.replace` throw a `TypeError`. -/
def htmlCell : String × Json → Except String String
  | (k, .str s) => .ok ("<tr><td>" ++ formatLabel k ++ "</td><td>" ++ nlToBr s ++ "</td></tr>")
  | (_, _) => .error "value.replace is not a function"

/-- One line of the text composer. -/
def textCell (p : String × Json) : String :=
  formatLabel p.1 ++ ": " ++ p.2.jsToString

/-- `formConfig?.name || formName` used by both composers. -/
def displayName (fc : Option FormConfig) (formName : String) : String :=
  jsOrStr (fc.map FormConfig.name) formName

/-- ASCII lowering, for `formDisplayName.toLowerCase()`. -/
def asciiLower (s : String) : String :=
  String.mk (s.toList.map Char.toLower)

/-- `generateHtmlEmail` of worker.ts.  The surrounding static HTML and CSS
boilerplate (declared an opaque string template by the specification) is
elided into short markers; the data-dependent parts (display name, lowered
display name, filtered field rows, timestamp) are modelled exactly. -/
def generateHtmlEmail (data : Json) (formName : String) (fc : Option FormConfig)
    (timestamp : String) : Except String String := do
  let dn := displayName fc formName
  let rows ← (filteredEntries data).mapM htmlCell
  pure ("<html><title>" ++ dn ++ " Submission</title><h1>New Form Submission</h1><p>" ++
    dn ++ "</p><p>You have received a new submission from your " ++ asciiLower dn ++
    ".</p><table>" ++ String.join rows ++ "</table><footer>Received: " ++ timestamp ++
    "</footer></html>")

/-- `generateTextEmail` of worker.ts, static text elided the same way. -/
def generateTextEmail (data : Json) (formName : String) (fc : Option FormConfig)
    (timestamp : String) : String :=
  let dn := displayName fc formName
  "New Form Submission - " ++ dn ++
    "\nYou have received a new submission from your " ++ asciiLower dn ++ ".\n" ++
    joinSep "\n" ((filteredEntries data).map textCell) ++
    "\nReceived: " ++ timestamp

/-- Error text thrown by `sendWithMailgun` on a non-success status. -/
def mailgunError (r : ProviderResponse) : String :=
  "Mailgun failed: " ++ toString r.status ++ " " ++ r.body

/-- `sendWithMailgun` of worker.ts: one provider call; throw when the
response is not ok. -/
def sendWithMailgun (provider : MailgunMessage → ProviderResponse)
    (msg : MailgunMessage) : Except String Unit :=
  let res := provider msg
  if resOk res.status then .ok () else .error (mailgunError res)

/-- The fan-out loop of worker.ts lines 125 to 134: send to the recipients in
order, stopping at the first failure.  Returns the calls actually made (a
failing call was still made) and the first error, if any. -/
def sendAll (provider : MailgunMessage → ProviderResponse)
    (fromAddr subject html text : String) : List String → List MailgunMessage × Option String
  | [] => ([], none)
  | r :: rest =>
    let msg : MailgunMessage := ⟨r, fromAddr, subject, html, text⟩
    match sendWithMailgun provider msg with
    | .ok _ =>
      let out := sendAll provider fromAddr subject html text rest
      (msg :: out.1, out.2)
    | .error e => ([msg], some e)

/-- The redirect-target computation of worker.ts lines 136 to 167: precedence
chain with JavaScript truthiness, then the smart-redirect rewrite when the
configured thank-you URL is root-relative and no explicit `_redirect` was
given. -/
def computeRedirect (p : Platform) (req : Request) (fc : Option FormConfig)
    (explicitJs : Option Json) : String :=
  let explicitTruthy := truthyOpt explicitJs
  let formThankYou := fc.bind FormConfig.thankYouUrl
  let target :=
    if explicitTruthy then jsToStringOpt explicitJs
    else jsOrStr formThankYou (jsOrStr req.redirectParam "/thank-you")
  match formThankYou with
  | some fty =>
    if fty != "" && strStartsWith fty "/" && !explicitTruthy then
      match req.referer with
      | some r =>
        if r != "" then
          match p.parseOrigin r with
          | some origin => origin ++ fty
          | none => p.resolveUrl fty req.url
        else p.resolveUrl fty req.url
      | none => p.resolveUrl fty req.url
    else p.resolveUrl target req.url
  | none => p.resolveUrl target req.url

/-- The 303 response of worker.ts lines 172 to 180, with its explicitly
listed headers. -/
def redirectResponse (location : String) : Response :=
  ⟨303, none,
    [("Location", location),
     ("Access-Control-Allow-Origin", "*"),
     ("Access-Control-Allow-Methods", "POST, OPTIONS"),
     ("Access-Control-Allow-Headers", "Content-Type")]⟩

/-- Lines 108 to 182 of worker.ts: compose, fan out, then compute the
redirect.  Errors are returned for the top-level catch together with the
provider calls already made. -/
def dispatchAndRedirect (p : Platform) (defaults : Defaults) (req : Request)
    (fc : Option FormConfig) (data : Json) (formName : String) :
    Except String Response × List MailgunMessage :=
  let subject := resolveSubject fc formName
  match generateHtmlEmail data formName fc p.timestamp with
  | .error e => (.error e, [])
  | .ok htmlContent =>
    let textContent := generateTextEmail data formName fc p.timestamp
    let recipients := resolveRecipients fc defaults
    let fromEmail := resolveFromEmail fc defaults
    match sendAll p.provider fromEmail subject htmlContent textContent recipients with
    | (calls, some e) => (.error e, calls)
    | (calls, none) =>
      match data.getProp "_redirect" with
      | .error e => (.error e, calls)
      | .ok explicitJs =>
        (.ok (redirectResponse (computeRedirect p req fc explicitJs)), calls)

/-- The body of the `try` block of worker.ts lines 52 to 182: credential
checks, body parsing, configuration lookup, form-name resolution, disabled
check, honeypot check, then dispatch and redirect. -/
def submitFlow (p : Platform) (configs : List (String × FormConfig))
    (defaults : Defaults) (env : Env) (req : Request) :
    Except String Response × List MailgunMessage :=
  if env.MAILGUN_API_KEY == "" then
    (.error "MAILGUN_API_KEY environment variable is not set", [])
  else if env.MAILGUN_DOMAIN == "" then
    (.error "MAILGUN_DOMAIN environment variable is not set", [])
  else
    match parseBody req with
    | .error e => (.error e, [])
    | .ok data =>
      let fc := getFormConfig configs req.pathname
      match resolveFormName fc data with
      | .error e => (.error e, [])
      | .ok formName =>
        if isDisabled fc then
          (.ok (cors ⟨503, some "Form is currently disabled", []⟩), [])
        else
          match data.getProp "_hp" with
          | .error e => (.error e, [])
          | .ok hpv =>
            if truthyOpt hpv then (.ok (cors ⟨200, some "OK", []⟩), [])
            else dispatchAndRedirect p defaults req fc data formName

/-- The `fetch` handler of src/src/worker.ts: OPTIONS preflight, route check
(the 404 branch returns WITHOUT the cors helper), method check, then the
submission flow with its catch-all conversion of thrown errors into a 400
text response. -/
def fetch (p : Platform) (configs : List (String × FormConfig))
    (defaults : Defaults) (env : Env) (req : Request) :
    Response × List MailgunMessage :=
  if req.method == "OPTIONS" then (cors ⟨204, none, []⟩, [])
  else if !(isFormRoute req.pathname) then (⟨404, some "Not Found", []⟩, [])
  else if req.method != "POST" then (cors ⟨405, some "Method Not Allowed", []⟩, [])
  else
    match submitFlow p configs defaults env req with
    | (.ok res, calls) => (res, calls)
    | (.error e, calls) => (cors ⟨400, some ("Error: " ++ e), []⟩, calls)

/-- Environment of the earlier variant src/unnamed/part_000. -/
structure EnvV0 where
  MAILGUN_API_KEY : String
  MAILGUN_DOMAIN : String
  NOTIFY_TO : String
  FROM_EMAIL : String

/-- Platform oracles for the earlier variant; `stringify` models
`JSON.stringify(data, null, 2)`. -/
structure PlatformV0 where
  resolveUrl : String → String → String
  providerV0 : MailgunMessageV0 → ProviderResponse
  stringify : Json → String

/-- `sendWithMailgun` of the earlier variant. -/
def sendWithMailgunV0 (provider : MailgunMessageV0 → ProviderResponse)
    (msg : MailgunMessageV0) : Except String Unit :=
  let res := provider msg
  if resOk res.status then .ok () else .error (mailgunError res)

/-- The static thank-you page of src/unnamed/part_000 (whitespace of the
template literal normalised; braces and the apostrophe written as escapes). -/
def thankYouHtml : String :=
  "<!DOCTYPE html>\n<html>\n<head>\n<title>Thank You</title>\n<style>\n" ++
  "body \x7b font-family: Arial, sans-serif; text-align: center; padding: 50px; \x7d\n" ++
  ".success \x7b color: #28a745; font-size: 24px; margin-bottom: 20px; \x7d\n" ++
  "</style>\n</head>\n<body>\n" ++
  "<div class=\"success\">✅ Thank you! Your message has been sent successfully.</div>\n" ++
  "<p>We\x27ll get back to you soon.</p>\n</body>\n</html>"

/-- The `try` block of the earlier variant: parse, honeypot, one provider
call to the configured recipient, then the redirect (no configured thank-you
URL exists in this variant, so no referer rewrite). -/
def submitFlowV0 (p : PlatformV0) (env : EnvV0) (req : Request) :
    Except String Response × List MailgunMessageV0 :=
  match parseBody req with
  | .error e => (.error e, [])
  | .ok data =>
    match data.getProp "_hp" with
    | .error e => (.error e, [])
    | .ok hpv =>
      if truthyOpt hpv then (.ok (cors ⟨200, some "OK", []⟩), [])
      else
        match formNameFromData data with
        | .error e => (.error e, [])
        | .ok formName =>
          let subject := "New " ++ formName ++ " submission"
          let text := p.stringify data
          let msg : MailgunMessageV0 := ⟨env.NOTIFY_TO, env.FROM_EMAIL, subject, text⟩
          match sendWithMailgunV0 p.providerV0 msg with
          | .error e => (.error e, [msg])
          | .ok _ =>
            match data.getProp "_redirect" with
            | .error e => (.error e, [msg])
            | .ok explicitJs =>
              let target :=
                if truthyOpt explicitJs then jsToStringOpt explicitJs
                else jsOrStr req.redirectParam "/thank-you"
              (.ok (redirectResponse (p.resolveUrl target req.url)), [msg])

/-- The `fetch` handler of src/unnamed/part_000: OPTIONS preflight, the
static `/thank-you` page, a 404 for every other path than `/submit` (again
without the cors helper), method check, then the submission flow. -/
def fetchV0 (p : PlatformV0) (env : EnvV0) (req : Request) :
    Response × List MailgunMessageV0 :=
  if req.method == "OPTIONS" then (cors ⟨204, none, []⟩, [])
  else if req.pathname == "/thank-you" then
    (cors ⟨200, some thankYouHtml, [("Content-Type", "text/html")]⟩, [])
  else if req.pathname != "/submit" then (⟨404, some "Not Found", []⟩, [])
  else if req.method != "POST" then (cors ⟨405, some "Method Not Allowed", []⟩, [])
  else
    match submitFlowV0 p env req with
    | (.ok res, calls) => (res, calls)
    | (.error e, calls) => (cors ⟨400, some ("Error: " ++ e), []⟩, calls)

/-! Concrete instantiations of the oracle parameters and of requests, used to
evaluate the handler at specific inputs. -/

/-- Concrete URL resolution oracle: keeps the target as-is. -/
def resolveW : String → String → String := fun t _ => t

/-- Concrete origin parser: only `https://site.example` parses. -/
def originW : String → Option String :=
  fun s => if s == "https://site.example" then some "https://site.example" else none

/-- Concrete provider: rejects mail to `bob@x` with a 500, accepts the rest. -/
def provW : MailgunMessage → ProviderResponse :=
  fun m => if m.toAddr == "bob@x" then ⟨500, "boom"⟩ else ⟨200, "ok"⟩

/-- A concrete platform assembled from the oracles above. -/
def platW : Platform :=
  ⟨resolveW, originW, provW, "2024-01-01, 10:00:00 AM"⟩

/-- Concrete provider that accepts every message. -/
def provOk : MailgunMessage → ProviderResponse := fun _ => ⟨200, "ok"⟩

/-- A concrete platform whose provider accepts everything. -/
def platOk : Platform :=
  ⟨resolveW, originW, provOk, "2024-01-01, 10:00:00 AM"⟩

/-- A concrete platform for the earlier variant. -/
def platV0W : PlatformV0 :=
  ⟨fun t _ => t, fun _ => ⟨200, "ok"⟩, fun _ => "dump"⟩

/-- Concrete defaults record. -/
def dflW : Defaults := ⟨"default@x", "forms@x", "/thank-you"⟩

/-- Concrete environment with both credentials present. -/
def envW : Env := ⟨"key", "domain"⟩

/-- Concrete environment with the API key missing (empty is falsy). -/
def envNoKey : Env := ⟨"", "domain"⟩

/-- Concrete environment for the earlier variant. -/
def envV0W : EnvV0 := ⟨"key", "domain", "notify@x", "forms@x"⟩

/-- Form `f` with two recipients, the second of which `platW` rejects. -/
def cfgTwo : List (String × FormConfig) :=
  [("f", ⟨"F", ["alice@x", "bob@x"], none, none, none, none⟩)]

/-- Form `d`, disabled. -/
def cfgDis : List (String × FormConfig) :=
  [("d", ⟨"D", ["alice@x"], none, none, none, some false⟩)]

/-- Form `g` with a root-relative thank-you URL. -/
def cfgRel : List (String × FormConfig) :=
  [("g", ⟨"G", ["alice@x"], none, some "/x/thank-you", none, some true⟩)]

/-- Form `n` with an empty recipient list. -/
def cfgNil : List (String × FormConfig) :=
  [("n", ⟨"N", [], none, none, none, none⟩)]

/-- A plain one-field JSON submission body. -/
def bodyAnn : Json := Json.obj [("name", Json.str "Ann")]

/-- Base POST request template with a JSON body. -/
def reqBase : Request :=
  { method := "POST", url := "https://w.example/f/submit", pathname := "/f/submit",
    redirectParam := none, contentType := some "application/json", referer := none,
    jsonBody := .ok bodyAnn, formDataBody := [], urlencodedBody := [] }

/-- POST to the two-recipient form. -/
def reqTwo : Request := reqBase

/-- POST to the disabled form with a filled honeypot field. -/
def reqHpDis : Request :=
  { reqBase with
    url := "https://w.example/d/submit"
    pathname := "/d/submit"
    jsonBody := .ok (Json.obj [("_hp", Json.str "x"), ("name", Json.str "y")]) }

/-- POST to an enabled form with a filled honeypot field. -/
def reqHpOk : Request :=
  { reqBase with jsonBody := .ok (Json.obj [("_hp", Json.str "x"), ("name", Json.str "y")]) }

/-- POST to the disabled form with a plain body. -/
def reqDis : Request :=
  { reqBase with url := "https://w.example/d/submit", pathname := "/d/submit" }

/-- GET to a path that matches no route. -/
def reqNope : Request :=
  { reqBase with method := "GET", url := "https://w.example/nope", pathname := "/nope" }

/-- GET to the thank-you path. -/
def reqTY : Request :=
  { reqBase with method := "GET", url := "https://w.example/thank-you", pathname := "/thank-you" }

/-- POST to form `g` with a referer that parses. -/
def reqRel : Request :=
  { reqBase with
    url := "https://w.example/g/submit"
    pathname := "/g/submit"
    referer := some "https://site.example" }

/-- POST to form `g` with `_redirect`, a `redirect` query parameter and the
configured thank-you URL all present at once. -/
def reqAllThree : Request :=
  { reqRel with
    redirectParam := some "https://q.example/q"
    jsonBody := .ok (Json.obj [("name", Json.str "Ann"), ("_redirect", Json.str "https://els.e/w")]) }

/-- POST to form `g` with an empty `_redirect` field and a referer. -/
def reqEmptyRedir : Request :=
  { reqRel with
    jsonBody := .ok (Json.obj [("name", Json.str "Ann"), ("_redirect", Json.str "")]) }

/-- POST to the empty-recipient form. -/
def reqNil : Request :=
  { reqBase with url := "https://w.example/n/submit", pathname := "/n/submit" }

/-- JSON request whose body is valid JSON but not an object. -/
def reqJsonStr : Request :=
  { reqBase with jsonBody := .ok (Json.str "hello") }

/-! Helper lemmas about headers, property access and the fan-out loop. -/

/-- Looking a key up after filtering that key out finds nothing. -/
theorem lookupHeader_filter_self (hs : List (String × String)) (k : String) :
    lookupHeader (hs.filter (fun p => p.1 != k)) k = none := by
  induction hs with
  | nil => rfl
  | cons a t ih =>
    by_cases h : (a.1 == k) = true
    · simpa [List.filter_cons, bne, h] using ih
    · have h' : (a.1 == k) = false := by
        cases hbe : a.1 == k
        · rfl
        · exact absurd hbe h
      simp only [lookupHeader, List.filter_cons, bne, h'] at ih ⊢
      simp only [Bool.not_false, if_true, List.find?]
      rw [h']
      exact ih

/-- Header lookup distributes over append. -/
theorem lookupHeader_append (l1 l2 : List (String × String)) (k : String) :
    lookupHeader (l1 ++ l2) k =
      match lookupHeader l1 k with
      | some v => some v
      | none => lookupHeader l2 k := by
  induction l1 with
  | nil => simp [lookupHeader]
  | cons a t ih =>
    by_cases h : (a.1 == k) = true
    · simp [lookupHeader, h]
    · have h' : (a.1 == k) = false := by
        cases hbe : a.1 == k
        · rfl
        · exact absurd hbe h
      simpa [lookupHeader, h'] using ih

/-- `Headers.set` followed by a lookup of the same key yields the new value. -/
theorem lookupHeader_set_same (hs : List (String × String)) (k v : String) :
    lookupHeader (setHeader hs k v) k = some v := by
  unfold setHeader
  rw [lookupHeader_append, lookupHeader_filter_self]
  simp [lookupHeader]

/-- `Headers.set` leaves lookups of other keys unchanged. -/
theorem lookupHeader_set_other (hs : List (String × String)) (k v k' : String)
    (h : (k' == k) = false) :
    lookupHeader (setHeader hs k v) k' = lookupHeader hs k' := by
  unfold setHeader
  rw [lookupHeader_append]
  have hf : lookupHeader (hs.filter (fun p => p.1 != k)) k' = lookupHeader hs k' := by
    induction hs with
    | nil => rfl
    | cons a t ih =>
      by_cases ha : (a.1 == k) = true
      · have hak : a.1 = k := by simpa using ha
        have h1 : (a.1 == k') = false := by
          cases hbe : a.1 == k'
          · rfl
          · have : a.1 = k' := by simpa using hbe
            rw [hak] at this
            rw [this] at h
            simp at h
        simpa [List.filter_cons, bne, ha, lookupHeader, h1] using ih
      · have ha' : (a.1 == k) = false := by
          cases hbe : a.1 == k
          · rfl
          · exact absurd hbe ha
        by_cases hk' : (a.1 == k') = true
        · simp [List.filter_cons, bne, ha', lookupHeader, hk']
        · have hk'' : (a.1 == k') = false := by
            cases hbe : a.1 == k'
            · rfl
            · exact absurd hbe hk'
          simpa [List.filter_cons, bne, ha', lookupHeader, hk''] using ih
  rw [hf]
  cases hl : lookupHeader hs k' with
  | none =>
    have hne : k' ≠ k := by simpa using h
    simp only [lookupHeader, List.find?]
    have hkk : (k == k') = false := by
      cases hbe : k == k'
      · rfl
      · have : k = k' := by simpa using hbe
        exact absurd this.symm hne
    simp [hkk]
  | some v' => simp

/-- Every response that went through the `cors` helper carries the triple. -/
theorem hasCorsHeaders_cors (r : Response) : hasCorsHeaders (cors r) = true := by
  unfold hasCorsHeaders cors getHeader
  simp only [lookupHeader_set_same,
    lookupHeader_set_other _ "Access-Control-Allow-Headers" "Content-Type"
      "Access-Control-Allow-Origin" (by rfl),
    lookupHeader_set_other _ "Access-Control-Allow-Headers" "Content-Type"
      "Access-Control-Allow-Methods" (by rfl),
    lookupHeader_set_other _ "Access-Control-Allow-Methods" "POST, OPTIONS"
      "Access-Control-Allow-Origin" (by rfl)]
  rfl

/-- The 303 redirect response carries the triple as well. -/
theorem hasCorsHeaders_redirect (location : String) :
    hasCorsHeaders (redirectResponse location) = true := rfl

/-- The `cors` helper keeps the status. -/
theorem cors_status (r : Response) : (cors r).status = r.status := rfl

/-- The `cors` helper keeps the body. -/
theorem cors_body (r : Response) : (cors r).body = r.body := rfl

/-- Property access only throws on `null`. -/
theorem getProp_ok_of_ne_null (data : Json) (h : data ≠ Json.null) (k : String) :
    ∃ v, data.getProp k = .ok v := by
  cases data with
  | null => exact absurd rfl h
  | bool b => exact ⟨_, rfl⟩
  | num n => exact ⟨_, rfl⟩
  | str s => exact ⟨_, rfl⟩
  | arr xs => exact ⟨_, rfl⟩
  | obj fs => exact ⟨_, rfl⟩

/-- A successful property access means the value was not `null`. -/
theorem ne_null_of_getProp_ok {data : Json} {k : String} {v : Option Json}
    (h : data.getProp k = .ok v) : data ≠ Json.null := by
  intro he
  rw [he] at h
  exact Except.noConfusion h

/-- A truthy property means the access succeeded on a truthy value. -/
theorem truthyProp_eq_true {data : Json} {k : String} (h : truthyProp data k = true) :
    ∃ v, data.getProp k = .ok v ∧ truthyOpt v = true := by
  unfold truthyProp at h
  cases hg : data.getProp k with
  | ok v =>
    rw [hg] at h
    exact ⟨v, rfl, h⟩
  | error e =>
    rw [hg] at h
    exact Bool.noConfusion h

/-- Form-name resolution only throws on a `null` body. -/
theorem resolveFormName_ok_of_ne_null (fc : Option FormConfig) (data : Json)
    (h : data ≠ Json.null) : ∃ fn, resolveFormName fc data = .ok fn := by
  have hform : ∃ fn, formNameFromData data = .ok fn := by
    obtain ⟨v, hv⟩ := getProp_ok_of_ne_null data h "_form"
    unfold formNameFromData
    rw [hv]
    cases v with
    | none => exact ⟨_, rfl⟩
    | some j => exact ⟨_, rfl⟩
  cases fc with
  | none => exact hform
  | some c =>
    simp only [resolveFormName]
    by_cases hn : (c.name == "") = true
    · rw [if_pos hn]
      exact hform
    · rw [if_neg hn]
      exact ⟨c.name, rfl⟩

/-- When the provider accepts every message the fan-out sends one message per
recipient, in order, and reports no error. -/
theorem sendAll_all_ok (provider : MailgunMessage → ProviderResponse)
    (f s h t : String) (rs : List String)
    (hok : ∀ m : MailgunMessage, resOk ((provider m).status) = true) :
    sendAll provider f s h t rs = (rs.map (fun r => ⟨r, f, s, h, t⟩), none) := by
  induction rs with
  | nil => rfl
  | cons r rest ih =>
    simp [sendAll, sendWithMailgun, hok, ih]

/-- When the provider accepts every message for the leading recipients and
rejects the next one, the fan-out stops there: the calls made are exactly the
prefix plus the failing call, and the error carries the failing status and
body. -/
theorem sendAll_fail (provider : MailgunMessage → ProviderResponse)
    (f s h t : String) (pre : List String) (bad : String) (post : List String)
    (stat : Nat) (b : String)
    (hpre : ∀ m : MailgunMessage, m.toAddr ∈ pre → resOk ((provider m).status) = true)
    (hbad : provider ⟨bad, f, s, h, t⟩ = ⟨stat, b⟩)
    (hko : resOk stat = false) :
    sendAll provider f s h t (pre ++ bad :: post) =
      ((pre ++ [bad]).map (fun r => ⟨r, f, s, h, t⟩),
       some ("Mailgun failed: " ++ toString stat ++ " " ++ b)) := by
  induction pre with
  | nil =>
    simp [sendAll, sendWithMailgun, hbad, hko, mailgunError]
  | cons r rest ih =>
    have hr : resOk ((provider ⟨r, f, s, h, t⟩).status) = true :=
      hpre ⟨r, f, s, h, t⟩ (List.mem_cons_self r rest)
    have ih' := ih (fun m hm => hpre m (List.mem_cons_of_mem r hm))
    simp only [List.cons_append, sendAll, sendWithMailgun, hr, if_true, ih', List.map_cons]
    simp [ih']

/-- A POST to a form route with both credentials present, a parsed body, a
resolved form name, an enabled form and an empty honeypot reaches the
dispatch and redirect stage; a thrown error becomes a 400 text response. -/
theorem fetch_dispatch (p : Platform) (configs : List (String × FormConfig))
    (defaults : Defaults) (env : Env) (req : Request)
    {data : Json} {formName : String} {hpv : Option Json}
    (hm : req.method = "POST") (hr : isFormRoute req.pathname = true)
    (hk : env.MAILGUN_API_KEY ≠ "") (hd : env.MAILGUN_DOMAIN ≠ "")
    (hparse : parseBody req = .ok data)
    (hfn : resolveFormName (getFormConfig configs req.pathname) data = .ok formName)
    (hdis : isDisabled (getFormConfig configs req.pathname) = false)
    (hhp : data.getProp "_hp" = .ok hpv) (hhpf : truthyOpt hpv = false) :
    fetch p configs defaults env req =
      match dispatchAndRedirect p defaults req (getFormConfig configs req.pathname) data formName with
      | (.ok res, calls) => (res, calls)
      | (.error e, calls) => (cors ⟨400, some ("Error: " ++ e), []⟩, calls) := by
  have h1 : (req.method == "OPTIONS") = false := by rw [hm]; rfl
  have h2 : (req.method != "POST") = false := by rw [hm]; rfl
  have h3 : (env.MAILGUN_API_KEY == "") = false := beq_eq_false_iff_ne.mpr hk
  have h4 : (env.MAILGUN_DOMAIN == "") = false := beq_eq_false_iff_ne.mpr hd
  simp only [fetch, submitFlow, h1, h2, h3, h4, hr, hparse, hfn, hdis, hhp, hhpf,
    Bool.not_true, Bool.false_eq_true, if_false, ite_false, ite_true, Bool.not_false]

/-- Every response the submission flow returns normally went through the
`cors` helper or is the 303 redirect with its explicit header list, so it
carries the CORS triple. -/
theorem dispatch_ok_cors (p : Platform) (defaults : Defaults) (req : Request)
    (fc : Option FormConfig) (data : Json) (formName : String) (res : Response)
    (calls : List MailgunMessage)
    (h : dispatchAndRedirect p defaults req fc data formName = (.ok res, calls)) :
    hasCorsHeaders res = true := by
  unfold dispatchAndRedirect at h
  dsimp only at h
  repeat' split at h
  all_goals simp only [Prod.mk.injEq] at h
  all_goals obtain ⟨h1, h2⟩ := h
  all_goals first
    | exact Except.noConfusion h1
    | (injection h1 with h1
       subst h1
       exact hasCorsHeaders_redirect _)

/-- Every response the submission flow returns normally went through the
`cors` helper or is the 303 redirect with its explicit header list. -/
theorem submitFlow_ok_cors (p : Platform) (configs : List (String × FormConfig))
    (defaults : Defaults) (env : Env) (req : Request) (res : Response)
    (calls : List MailgunMessage)
    (h : submitFlow p configs defaults env req = (.ok res, calls)) :
    hasCorsHeaders res = true := by
  unfold submitFlow at h
  dsimp only at h
  repeat' split at h
  all_goals first
    | exact dispatch_ok_cors _ _ _ _ _ _ _ _ h
    | (simp only [Prod.mk.injEq] at h
       obtain ⟨h1, h2⟩ := h
       first
       | exact Except.noConfusion h1
       | (injection h1 with h1
          subst h1
          exact hasCorsHeaders_cors _))

/-- C7: every HTTP response of the handler carries the three permissive CORS
headers, EXCEPT the 404 Not Found for an unmatched path, which the code
returns without the cors helper; proved here in the amended form: every
response either is that 404 or carries the triple. -/
theorem C7_cors_on_all_but_404 (p : Platform) (configs : List (String × FormConfig))
    (defaults : Defaults) (env : Env) (req : Request) :
    (fetch p configs defaults env req).1.status = 404 ∨
      hasCorsHeaders (fetch p configs defaults env req).1 = true := by
  unfold fetch
  split
  · exact Or.inr (hasCorsHeaders_cors _)
  · split
    · exact Or.inl rfl
    · split
      · exact Or.inr (hasCorsHeaders_cors _)
      · split
        · next res calls heq => exact Or.inr (submitFlow_ok_cors _ _ _ _ _ _ _ heq)
        · exact Or.inr (hasCorsHeaders_cors _)

/-- C7 counterexample: the 404 response for a GET to an unmatched path
carries none of the three CORS headers, refuting the claim as stated. -/
theorem C7_counterexample :
    (fetch platW [] dflW envW reqNope).1.status = 404 ∧
      getHeader (fetch platW [] dflW envW reqNope).1 "Access-Control-Allow-Origin" = none ∧
      getHeader (fetch platW [] dflW envW reqNope).1 "Access-Control-Allow-Methods" = none ∧
      getHeader (fetch platW [] dflW envW reqNope).1 "Access-Control-Allow-Headers" = none :=
  ⟨rfl, rfl, rfl, rfl⟩

/-- C3 amended: when the content type contains application/json the parser
returns exactly what the platform JSON parser produced, an error when the
body is not valid JSON and the parsed value unchanged otherwise, with no
check that the value is an object. -/
theorem C3_json_passthrough (req : Request)
    (hct : strIncludes (jsOrStr req.contentType "") "application/json" = true) :
    parseBody req = req.jsonBody := by
  unfold parseBody
  simp [hct]

/-- C3 witness: the amended theorem applied at a concrete JSON request. -/
theorem C3_witness : parseBody reqJsonStr = Except.ok (Json.str "hello") :=
  (C3_json_passthrough reqJsonStr rfl).trans rfl

/-- C3 counterexample: a body that is valid JSON but a bare string is
returned as-is by the parser instead of failing, refuting the claim that a
valid non-object body yields an error. -/
theorem C3_counterexample :
    strIncludes (jsOrStr reqJsonStr.contentType "") "application/json" = true ∧
      reqJsonStr.jsonBody = Except.ok (Json.str "hello") ∧
      parseBody reqJsonStr = Except.ok (Json.str "hello") :=
  ⟨rfl, rfl, rfl⟩

/-- The Location header of the 303 response is the computed target. -/
theorem getHeader_redirect_location (location : String) :
    getHeader (redirectResponse location) "Location" = some location := rfl

/-- An explicit non-empty `_redirect` value wins: the target is resolved
against the request URL and the referer rewrite is skipped. -/
theorem computeRedirect_explicit (p : Platform) (req : Request)
    (fc : Option FormConfig) (rv : String) (hrv : rv ≠ "") :
    computeRedirect p req fc (some (Json.str rv)) = p.resolveUrl rv req.url := by
  have ht : truthyOpt (some (Json.str rv)) = true := by
    simp [truthyOpt, Json.truthy, hrv]
  unfold computeRedirect
  rw [ht]
  cases hty : fc.bind FormConfig.thankYouUrl with
  | none => simp [jsToStringOpt, Json.jsToString]
  | some fty => simp [jsToStringOpt, Json.jsToString]

/-- With no truthy `_redirect`, a non-empty root-relative configured
thank-you URL and a referer that parses, the target is the referer origin
concatenated with the relative path. -/
theorem computeRedirect_rel_referer (p : Platform) (req : Request)
    (fc : Option FormConfig) (rdv : Option Json) (fty r o : String)
    (hrdf : truthyOpt rdv = false)
    (hty : fc.bind FormConfig.thankYouUrl = some fty)
    (htyne : fty ≠ "") (hrel : strStartsWith fty "/" = true)
    (href : req.referer = some r) (hrne : r ≠ "")
    (ho : p.parseOrigin r = some o) :
    computeRedirect p req fc rdv = o ++ fty := by
  have htyne' : (fty != "") = true := by simp [htyne]
  have hrne' : (r != "") = true := by simp [hrne]
  unfold computeRedirect
  rw [hrdf, hty, href]
  simp only [htyne', hrel, Bool.not_false, Bool.and_true, Bool.and_self, if_true, hrne', ho]

/-- Same situation but the referer does not parse: the code falls back to
resolving the relative path against the request URL, with no error. -/
theorem computeRedirect_rel_noorigin (p : Platform) (req : Request)
    (fc : Option FormConfig) (rdv : Option Json) (fty r : String)
    (hrdf : truthyOpt rdv = false)
    (hty : fc.bind FormConfig.thankYouUrl = some fty)
    (htyne : fty ≠ "") (hrel : strStartsWith fty "/" = true)
    (href : req.referer = some r) (hrne : r ≠ "")
    (ho : p.parseOrigin r = none) :
    computeRedirect p req fc rdv = p.resolveUrl fty req.url := by
  have htyne' : (fty != "") = true := by simp [htyne]
  have hrne' : (r != "") = true := by simp [hrne]
  unfold computeRedirect
  rw [hrdf, hty, href]
  simp only [htyne', hrel, Bool.not_false, Bool.and_true, Bool.and_self, if_true, hrne', ho]

/-- Same situation with no referer header at all: same fallback. -/
theorem computeRedirect_rel_noreferer (p : Platform) (req : Request)
    (fc : Option FormConfig) (rdv : Option Json) (fty : String)
    (hrdf : truthyOpt rdv = false)
    (hty : fc.bind FormConfig.thankYouUrl = some fty)
    (htyne : fty ≠ "") (hrel : strStartsWith fty "/" = true)
    (href : req.referer = none) :
    computeRedirect p req fc rdv = p.resolveUrl fty req.url := by
  have htyne' : (fty != "") = true := by simp [htyne]
  unfold computeRedirect
  rw [hrdf, hty, href]
  simp only [htyne', hrel, Bool.not_false, Bool.and_true, Bool.and_self, if_true]

/-- With no truthy `_redirect` and no configured thank-you URL, the target
falls through to the query parameter and then the literal `/thank-you`. -/
theorem computeRedirect_nothankyou (p : Platform) (req : Request)
    (fc : Option FormConfig) (rdv : Option Json)
    (hrdf : truthyOpt rdv = false)
    (hty : fc.bind FormConfig.thankYouUrl = none) :
    computeRedirect p req fc rdv =
      p.resolveUrl (jsOrStr req.redirectParam "/thank-you") req.url := by
  unfold computeRedirect
  rw [hrdf, hty]
  rfl

/-- When every send succeeds and the redirect field was read, the handler
answers with the 303 redirect response, having called the provider once per
recipient. -/
theorem fetch_redirect (p : Platform) (configs : List (String × FormConfig))
    (defaults : Defaults) (env : Env) (req : Request)
    {data : Json} {formName : String} {hpv rdv : Option Json} {html : String}
    {calls : List MailgunMessage}
    (hm : req.method = "POST") (hr : isFormRoute req.pathname = true)
    (hk : env.MAILGUN_API_KEY ≠ "") (hd : env.MAILGUN_DOMAIN ≠ "")
    (hparse : parseBody req = .ok data)
    (hfn : resolveFormName (getFormConfig configs req.pathname) data = .ok formName)
    (hdis : isDisabled (getFormConfig configs req.pathname) = false)
    (hhp : data.getProp "_hp" = .ok hpv) (hhpf : truthyOpt hpv = false)
    (hhtml : generateHtmlEmail data formName (getFormConfig configs req.pathname) p.timestamp
      = .ok html)
    (hsent : sendAll p.provider (resolveFromEmail (getFormConfig configs req.pathname) defaults)
        (resolveSubject (getFormConfig configs req.pathname) formName) html
        (generateTextEmail data formName (getFormConfig configs req.pathname) p.timestamp)
        (resolveRecipients (getFormConfig configs req.pathname) defaults) = (calls, none))
    (hred : data.getProp "_redirect" = .ok rdv) :
    fetch p configs defaults env req =
      (redirectResponse (computeRedirect p req (getFormConfig configs req.pathname) rdv),
       calls) := by
  rw [fetch_dispatch p configs defaults env req hm hr hk hd hparse hfn hdis hhp hhpf]
  unfold dispatchAndRedirect
  simp only [hhtml, hsent, hred]

/-- C1: with two or more resolved recipients, dispatch walks the list in
order making one provider call per recipient; at the first non-success
provider status the remaining recipients are never dispatched to, the
response is a 400 whose body is Error: Mailgun failed: followed by the
provider status and body, and the calls already made are kept. -/
theorem C1_first_failure_aborts (p : Platform) (configs : List (String × FormConfig))
    (defaults : Defaults) (env : Env) (req : Request)
    {data : Json} {formName : String} {hpv : Option Json} {html : String}
    (pre : List String) (bad : String) (post : List String) (stat : Nat) (b : String)
    (hm : req.method = "POST") (hr : isFormRoute req.pathname = true)
    (hk : env.MAILGUN_API_KEY ≠ "") (hd : env.MAILGUN_DOMAIN ≠ "")
    (hparse : parseBody req = .ok data)
    (hfn : resolveFormName (getFormConfig configs req.pathname) data = .ok formName)
    (hdis : isDisabled (getFormConfig configs req.pathname) = false)
    (hhp : data.getProp "_hp" = .ok hpv) (hhpf : truthyOpt hpv = false)
    (hhtml : generateHtmlEmail data formName (getFormConfig configs req.pathname) p.timestamp
      = .ok html)
    (hrec : resolveRecipients (getFormConfig configs req.pathname) defaults = pre ++ bad :: post)
    (hlen : 2 ≤ (pre ++ bad :: post).length)
    (hpre : ∀ m : MailgunMessage, m.toAddr ∈ pre → resOk ((p.provider m).status) = true)
    (hbad : ∀ m : MailgunMessage, m.toAddr = bad → p.provider m = ⟨stat, b⟩)
    (hko : resOk stat = false) :
    (fetch p configs defaults env req).1.status = 400 ∧
    (fetch p configs defaults env req).1.body =
      some ("Error: Mailgun failed: " ++ toString stat ++ " " ++ b) ∧
    (fetch p configs defaults env req).2.map MailgunMessage.toAddr = pre ++ [bad] := by
  rw [fetch_dispatch p configs defaults env req hm hr hk hd hparse hfn hdis hhp hhpf]
  unfold dispatchAndRedirect
  simp only [hhtml]
  rw [hrec, sendAll_fail p.provider _ _ _ _ pre bad post stat b hpre (hbad _ rfl) hko]
  refine ⟨rfl, ?_, ?_⟩
  · show some ("Error: " ++ ("Mailgun failed: " ++ toString stat ++ " " ++ b)) = _
    rw [← String.append_assoc, ← String.append_assoc, ← String.append_assoc]
    rfl
  · show ((pre ++ [bad]).map _).map MailgunMessage.toAddr = pre ++ [bad]
    rw [List.map_map]
    have hfun : ∀ f s h t, (MailgunMessage.toAddr ∘ fun r =>
        (⟨r, f, s, h, t⟩ : MailgunMessage)) = id := by
      intro f s h t
      funext r
      rfl
    rw [hfun, List.map_id]

/-- C1 witness: form `f` fans out to alice then bob; the provider rejects
the call for bob with a 500 carrying body boom, so exactly those two calls
are made and the response is the 400 error text. -/
theorem C1_witness :
    (fetch platW cfgTwo dflW envW reqTwo).1.status = 400 ∧
    (fetch platW cfgTwo dflW envW reqTwo).1.body = some "Error: Mailgun failed: 500 boom" ∧
    (fetch platW cfgTwo dflW envW reqTwo).2.map MailgunMessage.toAddr = ["alice@x", "bob@x"] := by
  have h := C1_first_failure_aborts platW cfgTwo dflW envW reqTwo
    ["alice@x"] "bob@x" [] 500 "boom"
    rfl rfl (by decide) (by decide) rfl rfl rfl rfl rfl rfl rfl (by decide)
    (fun m hm => by
      have hma : m.toAddr = "alice@x" := by simpa using hm
      show resOk ((provW m).status) = true
      unfold provW
      rw [hma]
      rfl)
    (fun m hm => by
      show provW m = ⟨500, "boom"⟩
      unfold provW
      rw [hm]
      rfl)
    (by decide)
  exact ⟨h.1, h.2.1, h.2.2⟩

/-- C2 amended: a parsed submission with a truthy honeypot field never
produces an outbound provider call, in any configuration; the response is
200 with body OK provided both credentials are present and the resolved form
is not disabled (a disabled form yields 503 and missing credentials 400
before the honeypot check runs). -/
theorem C2_honeypot (p : Platform) (configs : List (String × FormConfig))
    (defaults : Defaults) (env : Env) (req : Request) {data : Json}
    (hm : req.method = "POST") (hr : isFormRoute req.pathname = true)
    (hparse : parseBody req = .ok data)
    (hhp : truthyProp data "_hp" = true) :
    (fetch p configs defaults env req).2 = [] ∧
    (env.MAILGUN_API_KEY ≠ "" → env.MAILGUN_DOMAIN ≠ "" →
      isDisabled (getFormConfig configs req.pathname) = false →
      (fetch p configs defaults env req).1.status = 200 ∧
      (fetch p configs defaults env req).1.body = some "OK") := by
  obtain ⟨hpv, hghp, htr⟩ := truthyProp_eq_true hhp
  have hne := ne_null_of_getProp_ok hghp
  obtain ⟨fn, hfn⟩ := resolveFormName_ok_of_ne_null (getFormConfig configs req.pathname) data hne
  have h1 : (req.method == "OPTIONS") = false := by rw [hm]; rfl
  have h2 : (req.method != "POST") = false := by rw [hm]; rfl
  by_cases hk : env.MAILGUN_API_KEY = ""
  · have hk' : (env.MAILGUN_API_KEY == "") = true := by simp [hk]
    refine ⟨?_, fun hkne => absurd hk hkne⟩
    simp only [fetch, submitFlow, h1, h2, hr, hk', Bool.not_true, Bool.false_eq_true,
      if_false, if_true, ite_true, ite_false]
  · have hk' : (env.MAILGUN_API_KEY == "") = false := beq_eq_false_iff_ne.mpr hk
    by_cases hdm : env.MAILGUN_DOMAIN = ""
    · have hd' : (env.MAILGUN_DOMAIN == "") = true := by simp [hdm]
      refine ⟨?_, fun _ hdne => absurd hdm hdne⟩
      simp only [fetch, submitFlow, h1, h2, hr, hk', hd', Bool.not_true, Bool.false_eq_true,
        if_false, if_true, ite_true, ite_false]
    · have hd' : (env.MAILGUN_DOMAIN == "") = false := beq_eq_false_iff_ne.mpr hdm
      cases hdis : isDisabled (getFormConfig configs req.pathname) with
      | true =>
        have hfx : fetch p configs defaults env req =
            (cors ⟨503, some "Form is currently disabled", []⟩, []) := by
          simp only [fetch, submitFlow, h1, h2, hr, hk', hd', hparse, hfn, hdis,
            Bool.not_true, Bool.false_eq_true, if_false, if_true, ite_true, ite_false]
        rw [hfx]
        refine ⟨rfl, fun _ _ hd0 => ?_⟩
        simp [hdis] at hd0
      | false =>
        have hfx : fetch p configs defaults env req = (cors ⟨200, some "OK", []⟩, []) := by
          simp only [fetch, submitFlow, h1, h2, hr, hk', hd', hparse, hfn, hdis, hghp, htr,
            Bool.not_true, Bool.false_eq_true, if_false, if_true, ite_true, ite_false]
        rw [hfx]
        exact ⟨rfl, fun _ _ _ => ⟨rfl, rfl⟩⟩

/-- C2 witness: a filled honeypot on an enabled form with credentials
present makes no call and answers 200 OK. -/
theorem C2_witness :
    (fetch platW cfgTwo dflW envW reqHpOk).2 = [] ∧
    (fetch platW cfgTwo dflW envW reqHpOk).1.status = 200 ∧
    (fetch platW cfgTwo dflW envW reqHpOk).1.body = some "OK" := by
  have h := C2_honeypot platW cfgTwo dflW envW reqHpOk rfl rfl rfl rfl
  exact ⟨h.1, (h.2 (by decide) (by decide) rfl).1, (h.2 (by decide) (by decide) rfl).2⟩

/-- C2 counterexample: a POST to the disabled form `d` with a non-empty
`_hp` field satisfies the claim premise, yet the response status is 503, not
200, because the disabled check runs before the honeypot check. -/
theorem C2_counterexample :
    reqHpDis.method = "POST" ∧ isFormRoute reqHpDis.pathname = true ∧
    parseBody reqHpDis = Except.ok (Json.obj [("_hp", Json.str "x"), ("name", Json.str "y")]) ∧
    truthyProp (Json.obj [("_hp", Json.str "x"), ("name", Json.str "y")]) "_hp" = true ∧
    (fetch platW cfgDis dflW envW reqHpDis).1.status = 503 :=
  ⟨rfl, rfl, rfl, rfl, rfl⟩

/-- C6 amended: a POST to a submission path resolving to a disabled
configuration never calls the dispatcher; when both provider credentials are
present, the body parses, and the configuration has a non-empty display name
(so that name resolution cannot throw first), the response is the 503 with
the disabled-form text.  Missing credentials or an unparseable body yield a
400 before the disabled check is reached. -/
theorem C6_disabled (p : Platform) (configs : List (String × FormConfig))
    (defaults : Defaults) (env : Env) (req : Request) {c : FormConfig}
    (hm : req.method = "POST") (hr : isFormRoute req.pathname = true)
    (hcfg : getFormConfig configs req.pathname = some c)
    (hdis : c.enabled = some false) (hname : c.name ≠ "") :
    (fetch p configs defaults env req).2 = [] ∧
    (env.MAILGUN_API_KEY ≠ "" → env.MAILGUN_DOMAIN ≠ "" →
      ∀ data, parseBody req = .ok data →
        (fetch p configs defaults env req).1.status = 503 ∧
        (fetch p configs defaults env req).1.body = some "Form is currently disabled") := by
  have h1 : (req.method == "OPTIONS") = false := by rw [hm]; rfl
  have h2 : (req.method != "POST") = false := by rw [hm]; rfl
  have hn' : (c.name == "") = false := beq_eq_false_iff_ne.mpr hname
  have hfn : ∀ data, resolveFormName (getFormConfig configs req.pathname) data = .ok c.name := by
    intro data
    rw [hcfg]
    simp [resolveFormName, hn']
  have hdis' : isDisabled (getFormConfig configs req.pathname) = true := by
    rw [hcfg]
    simp [isDisabled, hdis]
  constructor
  · by_cases hk : env.MAILGUN_API_KEY = ""
    · have hk' : (env.MAILGUN_API_KEY == "") = true := by simp [hk]
      simp only [fetch, submitFlow, h1, h2, hr, hk', Bool.not_true, Bool.false_eq_true,
        if_false, if_true, ite_true, ite_false]
    · have hk' : (env.MAILGUN_API_KEY == "") = false := beq_eq_false_iff_ne.mpr hk
      by_cases hdm : env.MAILGUN_DOMAIN = ""
      · have hd' : (env.MAILGUN_DOMAIN == "") = true := by simp [hdm]
        simp only [fetch, submitFlow, h1, h2, hr, hk', hd', Bool.not_true, Bool.false_eq_true,
          if_false, if_true, ite_true, ite_false]
      · have hd' : (env.MAILGUN_DOMAIN == "") = false := beq_eq_false_iff_ne.mpr hdm
        cases hps : parseBody req with
        | error e =>
          simp only [fetch, submitFlow, h1, h2, hr, hk', hd', hps, Bool.not_true,
            Bool.false_eq_true, if_false, if_true, ite_true, ite_false]
        | ok data =>
          simp only [fetch, submitFlow, h1, h2, hr, hk', hd', hps, hfn data, hdis',
            Bool.not_true, Bool.false_eq_true, if_false, if_true, ite_true, ite_false]
  · intro hk hdm data hps
    have hk' : (env.MAILGUN_API_KEY == "") = false := beq_eq_false_iff_ne.mpr hk
    have hd' : (env.MAILGUN_DOMAIN == "") = false := beq_eq_false_iff_ne.mpr hdm
    have hfx : fetch p configs defaults env req =
        (cors ⟨503, some "Form is currently disabled", []⟩, []) := by
      simp only [fetch, submitFlow, h1, h2, hr, hk', hd', hps, hfn data, hdis',
        Bool.not_true, Bool.false_eq_true, if_false, if_true, ite_true, ite_false]
    rw [hfx]
    exact ⟨rfl, rfl⟩

/-- C6 witness: the disabled form with credentials present answers 503 and
never calls the provider. -/
theorem C6_witness :
    (fetch platW cfgDis dflW envW reqDis).2 = [] ∧
    (fetch platW cfgDis dflW envW reqDis).1.status = 503 ∧
    (fetch platW cfgDis dflW envW reqDis).1.body = some "Form is currently disabled" := by
  have h := C6_disabled platW cfgDis dflW envW reqDis rfl rfl rfl rfl (by decide)
  exact ⟨h.1, (h.2 (by decide) (by decide) bodyAnn rfl).1, (h.2 (by decide) (by decide) bodyAnn rfl).2⟩

/-- C6 counterexample: the same disabled form with the API key missing
answers 400 naming the missing credential, not 503: the credential check
precedes the disabled check, refuting the claim as stated. -/
theorem C6_counterexample :
    reqDis.method = "POST" ∧ isFormRoute reqDis.pathname = true ∧
    getFormConfig cfgDis reqDis.pathname =
      some ⟨"D", ["alice@x"], none, none, none, some false⟩ ∧
    (fetch platW cfgDis dflW envNoKey reqDis).1.status = 400 ∧
    (fetch platW cfgDis dflW envNoKey reqDis).1.body =
      some "Error: MAILGUN_API_KEY environment variable is not set" :=
  ⟨rfl, rfl, rfl, rfl, rfl⟩

/-- C4: when a non-empty `_redirect` body field, a non-empty `redirect`
query parameter and a non-empty configured thank-you URL are present at the
same time, the `_redirect` value wins: the 303 Location is that value
resolved against the request URL, ahead of the configured thank-you URL, the
query parameter and the literal `/thank-you`. -/
theorem C4_redirect_precedence (p : Platform) (configs : List (String × FormConfig))
    (defaults : Defaults) (env : Env) (req : Request)
    {data : Json} {formName : String} {hpv : Option Json} {html : String}
    (rv ty qv : String)
    (hm : req.method = "POST") (hr : isFormRoute req.pathname = true)
    (hk : env.MAILGUN_API_KEY ≠ "") (hd : env.MAILGUN_DOMAIN ≠ "")
    (hparse : parseBody req = .ok data)
    (hfn : resolveFormName (getFormConfig configs req.pathname) data = .ok formName)
    (hdis : isDisabled (getFormConfig configs req.pathname) = false)
    (hhp : data.getProp "_hp" = .ok hpv) (hhpf : truthyOpt hpv = false)
    (hhtml : generateHtmlEmail data formName (getFormConfig configs req.pathname) p.timestamp
      = .ok html)
    (hsend : ∀ m : MailgunMessage, resOk ((p.provider m).status) = true)
    (hred : data.getProp "_redirect" = .ok (some (Json.str rv))) (hrv : rv ≠ "")
    (hty : (getFormConfig configs req.pathname).bind FormConfig.thankYouUrl = some ty)
    (htyne : ty ≠ "")
    (hq : req.redirectParam = some qv) (hqne : qv ≠ "") :
    (fetch p configs defaults env req).1.status = 303 ∧
    getHeader (fetch p configs defaults env req).1 "Location" =
      some (p.resolveUrl rv req.url) := by
  have hfx := fetch_redirect p configs defaults env req hm hr hk hd hparse hfn hdis hhp hhpf
    hhtml (sendAll_all_ok p.provider _ _ _ _ _ hsend) hred
  rw [hfx, computeRedirect_explicit p req _ rv hrv]
  exact ⟨rfl, rfl⟩

/-- C4 witness: `_redirect`, the query parameter and the configured
thank-you URL all present; the Location is the `_redirect` value. -/
theorem C4_witness :
    (fetch platOk cfgRel dflW envW reqAllThree).1.status = 303 ∧
    getHeader (fetch platOk cfgRel dflW envW reqAllThree).1 "Location" =
      some "https://els.e/w" := by
  have h := C4_redirect_precedence platOk cfgRel dflW envW reqAllThree
    "https://els.e/w" "/x/thank-you" "https://q.example/q"
    rfl rfl (by decide) (by decide) rfl rfl rfl rfl rfl rfl
    (fun _ => rfl) rfl (by decide) rfl (by decide) rfl (by decide)
  exact h

/-- C5: for a successful submission whose target is a non-empty
root-relative configured thank-you URL with no truthy `_redirect` field, the
response is always a 303 (a malformed referer is never surfaced); with a
referer that parses, the Location is the referer origin concatenated with
the relative path, and with an absent or unparseable referer the path is
resolved against the request URL instead. -/
theorem C5_referer_origin (p : Platform) (configs : List (String × FormConfig))
    (defaults : Defaults) (env : Env) (req : Request)
    {data : Json} {formName : String} {hpv rdv : Option Json} {html : String}
    (fty : String)
    (hm : req.method = "POST") (hr : isFormRoute req.pathname = true)
    (hk : env.MAILGUN_API_KEY ≠ "") (hd : env.MAILGUN_DOMAIN ≠ "")
    (hparse : parseBody req = .ok data)
    (hfn : resolveFormName (getFormConfig configs req.pathname) data = .ok formName)
    (hdis : isDisabled (getFormConfig configs req.pathname) = false)
    (hhp : data.getProp "_hp" = .ok hpv) (hhpf : truthyOpt hpv = false)
    (hhtml : generateHtmlEmail data formName (getFormConfig configs req.pathname) p.timestamp
      = .ok html)
    (hsend : ∀ m : MailgunMessage, resOk ((p.provider m).status) = true)
    (hred : data.getProp "_redirect" = .ok rdv) (hrdf : truthyOpt rdv = false)
    (hty : (getFormConfig configs req.pathname).bind FormConfig.thankYouUrl = some fty)
    (htyne : fty ≠ "") (hrel : strStartsWith fty "/" = true) :
    (fetch p configs defaults env req).1.status = 303 ∧
    (∀ r o, req.referer = some r → r ≠ "" → p.parseOrigin r = some o →
      getHeader (fetch p configs defaults env req).1 "Location" = some (o ++ fty)) ∧
    (∀ r, req.referer = some r → r ≠ "" → p.parseOrigin r = none →
      getHeader (fetch p configs defaults env req).1 "Location" =
        some (p.resolveUrl fty req.url)) ∧
    (req.referer = none →
      getHeader (fetch p configs defaults env req).1 "Location" =
        some (p.resolveUrl fty req.url)) := by
  have hfx := fetch_redirect p configs defaults env req hm hr hk hd hparse hfn hdis hhp hhpf
    hhtml (sendAll_all_ok p.provider _ _ _ _ _ hsend) hred
  rw [hfx]
  refine ⟨rfl, ?_, ?_, ?_⟩
  · intro r o href hrne ho
    rw [getHeader_redirect_location,
      computeRedirect_rel_referer p req _ rdv fty r o hrdf hty htyne hrel href hrne ho]
  · intro r href hrne ho
    rw [getHeader_redirect_location,
      computeRedirect_rel_noorigin p req _ rdv fty r hrdf hty htyne hrel href hrne ho]
  · intro href
    rw [getHeader_redirect_location,
      computeRedirect_rel_noreferer p req _ rdv fty hrdf hty htyne hrel href]

/-- C5 witness: relative thank-you URL plus the referer
`https://site.example` resolve to `https://site.example/x/thank-you`. -/
theorem C5_witness :
    (fetch platOk cfgRel dflW envW reqRel).1.status = 303 ∧
    getHeader (fetch platOk cfgRel dflW envW reqRel).1 "Location" =
      some "https://site.example/x/thank-you" := by
  have h := C5_referer_origin platOk cfgRel dflW envW reqRel "/x/thank-you"
    rfl rfl (by decide) (by decide) rfl rfl rfl rfl rfl rfl
    (fun _ => rfl) rfl rfl rfl (by decide) rfl
  exact ⟨h.1, h.2.1 "https://site.example" "https://site.example" rfl (by decide) rfl⟩

/-- C9: a form whose configured `notifyTo` is the empty list makes zero
provider calls (the empty array is truthy, so the default recipient is not
substituted) and still answers with the 303 redirect. -/
theorem C9_empty_notifyTo (p : Platform) (configs : List (String × FormConfig))
    (defaults : Defaults) (env : Env) (req : Request)
    {data : Json} {formName : String} {hpv : Option Json} {html : String} {c : FormConfig}
    (hm : req.method = "POST") (hr : isFormRoute req.pathname = true)
    (hk : env.MAILGUN_API_KEY ≠ "") (hd : env.MAILGUN_DOMAIN ≠ "")
    (hparse : parseBody req = .ok data)
    (hfn : resolveFormName (getFormConfig configs req.pathname) data = .ok formName)
    (hdis : isDisabled (getFormConfig configs req.pathname) = false)
    (hhp : data.getProp "_hp" = .ok hpv) (hhpf : truthyOpt hpv = false)
    (hhtml : generateHtmlEmail data formName (getFormConfig configs req.pathname) p.timestamp
      = .ok html)
    (hcfg : getFormConfig configs req.pathname = some c)
    (hnil : c.notifyTo = []) :
    (fetch p configs defaults env req).2 = [] ∧
    (fetch p configs defaults env req).1.status = 303 := by
  have hrec : resolveRecipients (getFormConfig configs req.pathname) defaults = [] := by
    rw [hcfg]
    simp [resolveRecipients, hnil]
  have hne := ne_null_of_getProp_ok hhp
  obtain ⟨rdv, hrd⟩ := getProp_ok_of_ne_null data hne "_redirect"
  have hsent : sendAll p.provider
      (resolveFromEmail (getFormConfig configs req.pathname) defaults)
      (resolveSubject (getFormConfig configs req.pathname) formName) html
      (generateTextEmail data formName (getFormConfig configs req.pathname) p.timestamp)
      (resolveRecipients (getFormConfig configs req.pathname) defaults) = ([], none) := by
    rw [hrec]
    rfl
  have hfx := fetch_redirect p configs defaults env req hm hr hk hd hparse hfn hdis hhp hhpf
    hhtml hsent hrd
  rw [hfx]
  exact ⟨rfl, rfl⟩

/-- C9 witness: form `n` has `notifyTo = []`; no call is made and the
response is still a 303. -/
theorem C9_witness :
    (fetch platW cfgNil dflW envW reqNil).2 = [] ∧
    (fetch platW cfgNil dflW envW reqNil).1.status = 303 := by
  have h := C9_empty_notifyTo platW cfgNil dflW envW reqNil
    rfl rfl (by decide) (by decide) rfl rfl rfl rfl rfl rfl rfl rfl
  exact h

/-- C10: a `_redirect` field equal to the empty string is falsy and so is
treated as absent: the target falls through to the configured thank-you URL
(with the referer-based origin rewrite still applying when it is
root-relative), then to the query parameter, then to `/thank-you`. -/
theorem C10_empty_redirect_ignored (p : Platform) (configs : List (String × FormConfig))
    (defaults : Defaults) (env : Env) (req : Request)
    {data : Json} {formName : String} {hpv : Option Json} {html : String}
    (hm : req.method = "POST") (hr : isFormRoute req.pathname = true)
    (hk : env.MAILGUN_API_KEY ≠ "") (hd : env.MAILGUN_DOMAIN ≠ "")
    (hparse : parseBody req = .ok data)
    (hfn : resolveFormName (getFormConfig configs req.pathname) data = .ok formName)
    (hdis : isDisabled (getFormConfig configs req.pathname) = false)
    (hhp : data.getProp "_hp" = .ok hpv) (hhpf : truthyOpt hpv = false)
    (hhtml : generateHtmlEmail data formName (getFormConfig configs req.pathname) p.timestamp
      = .ok html)
    (hsend : ∀ m : MailgunMessage, resOk ((p.provider m).status) = true)
    (hred : data.getProp "_redirect" = .ok (some (Json.str ""))) :
    (fetch p configs defaults env req).1.status = 303 ∧
    (∀ fty r o,
      (getFormConfig configs req.pathname).bind FormConfig.thankYouUrl = some fty →
      fty ≠ "" → strStartsWith fty "/" = true → req.referer = some r → r ≠ "" →
      p.parseOrigin r = some o →
      getHeader (fetch p configs defaults env req).1 "Location" = some (o ++ fty)) ∧
    ((getFormConfig configs req.pathname).bind FormConfig.thankYouUrl = none →
      getHeader (fetch p configs defaults env req).1 "Location" =
        some (p.resolveUrl (jsOrStr req.redirectParam "/thank-you") req.url)) := by
  have hrdf : truthyOpt (some (Json.str "")) = false := rfl
  have hfx := fetch_redirect p configs defaults env req hm hr hk hd hparse hfn hdis hhp hhpf
    hhtml (sendAll_all_ok p.provider _ _ _ _ _ hsend) hred
  rw [hfx]
  refine ⟨rfl, ?_, ?_⟩
  · intro fty r o hty htyne hrel href hrne ho
    rw [getHeader_redirect_location,
      computeRedirect_rel_referer p req _ _ fty r o hrdf hty htyne hrel href hrne ho]
  · intro hty
    rw [getHeader_redirect_location, computeRedirect_nothankyou p req _ _ hrdf hty]

/-- C10 witness: an empty `_redirect` with the relative thank-you URL and a
valid referer still resolves to the referer origin plus the path. -/
theorem C10_witness :
    (fetch platOk cfgRel dflW envW reqEmptyRedir).1.status = 303 ∧
    getHeader (fetch platOk cfgRel dflW envW reqEmptyRedir).1 "Location" =
      some "https://site.example/x/thank-you" := by
  have h := C10_empty_redirect_ignored platOk cfgRel dflW envW reqEmptyRedir
    rfl rfl (by decide) (by decide) rfl rfl rfl rfl rfl rfl (fun _ => rfl) rfl
  exact ⟨h.1, h.2.1 "/x/thank-you" "https://site.example" "https://site.example"
    rfl (by decide) rfl rfl (by decide) rfl⟩

/-- C8 amended: the `/thank-you` route exists only in the earlier variant
src/unnamed/part_000, where every GET or POST to it answers 200 with the
static success page and content type text/html; the current worker
src/src/worker.ts has no such route and answers 404 Not Found. -/
theorem C8_thankyou_variant (p0 : PlatformV0) (env0 : EnvV0) (p : Platform)
    (configs : List (String × FormConfig)) (defaults : Defaults) (env : Env)
    (req : Request)
    (hpath : req.pathname = "/thank-you")
    (hm : req.method = "GET" ∨ req.method = "POST") :
    (fetchV0 p0 env0 req).1.status = 200 ∧
    (fetchV0 p0 env0 req).1.body = some thankYouHtml ∧
    getHeader (fetchV0 p0 env0 req).1 "Content-Type" = some "text/html" ∧
    (fetch p configs defaults env req).1.status = 404 ∧
    (fetch p configs defaults env req).1.body = some "Not Found" := by
  have hno : (req.method == "OPTIONS") = false := by
    rcases hm with h | h <;> rw [h] <;> rfl
  have hty : (req.pathname == "/thank-you") = true := by rw [hpath]; rfl
  have hform : isFormRoute req.pathname = false := by rw [hpath]; rfl
  have v0 : fetchV0 p0 env0 req =
      (cors ⟨200, some thankYouHtml, [("Content-Type", "text/html")]⟩, []) := by
    simp only [fetchV0, hno, hty, Bool.false_eq_true, if_false, if_true, ite_true, ite_false]
  have main : fetch p configs defaults env req = (⟨404, some "Not Found", []⟩, []) := by
    simp only [fetch, hno, hform, Bool.not_false, Bool.false_eq_true, if_false, if_true,
      ite_true, ite_false]
  rw [v0, main]
  exact ⟨rfl, rfl, rfl, rfl, rfl⟩

/-- C8 witness: a GET to `/thank-you` against the earlier variant. -/
theorem C8_witness :
    (fetchV0 platV0W envV0W reqTY).1.status = 200 ∧
    (fetchV0 platV0W envV0W reqTY).1.body = some thankYouHtml ∧
    getHeader (fetchV0 platV0W envV0W reqTY).1 "Content-Type" = some "text/html" := by
  have h := C8_thankyou_variant platV0W envV0W platW cfgTwo dflW envW reqTY rfl (Or.inl rfl)
  exact ⟨h.1, h.2.1, h.2.2.1⟩

/-- C8 counterexample: the current worker answers a GET to `/thank-you` with
404 Not Found, not the static 200 page the claim describes. -/
theorem C8_counterexample :
    reqTY.pathname = "/thank-you" ∧ reqTY.method = "GET" ∧
    (fetch platW cfgTwo dflW envW reqTY).1.status = 404 ∧
    (fetch platW cfgTwo dflW envW reqTY).1.body = some "Not Found" :=
  ⟨rfl, rfl, rfl, rfl⟩

end FormRelay
